import Mathlib

/-!
Shallow embedding of the popup UI layer of gerrit-monitor (src/popup.js).

The DOM builder is modelled as a trace of emitted DOM events; the fluent
builder methods append events in call order.  Browser element visibility is
modelled by a record of the visibility state of the four elements the code
touches, plus the overlay text, the children of the login element and the
content rendered into the results container.  Collaborating modules that are
not part of the sources (messages.js, config.js, gerrit.js, dombuilder.js,
browser.js) are modelled from the specification where the claims need them;
each such definition carries a doc comment saying so.
-/

/-- One DOM-construction event emitted through the fluent builder.
Modelled from the spec: dombuilder.js is an external collaborator described
as a fluent helper that creates and appends DOM nodes, sets
attributes/classes/text, and supports iteration callbacks; we record the
calls as a trace in emission order. -/
inductive DomEvent where
  | beginTag : String → DomEvent
  | endTag : String → DomEvent
  | addClass : String → DomEvent
  | appendText : String → DomEvent
  | setAttr : String → String → DomEvent
  | onClickOpen : String → DomEvent
  deriving DecidableEq, Repr

/-- The fluent DOM builder, as the trace of events emitted so far. -/
structure Builder where
  events : List DomEvent
  deriving DecidableEq, Repr

namespace Builder

def push (b : Builder) (e : DomEvent) : Builder :=
  ⟨b.events ++ [e]⟩

def beginEl (b : Builder) (tag : String) : Builder :=
  b.push (DomEvent.beginTag tag)

def endEl (b : Builder) (tag : String) : Builder :=
  b.push (DomEvent.endTag tag)

def addClass (b : Builder) (c : String) : Builder :=
  b.push (DomEvent.addClass c)

def appendText (b : Builder) (s : String) : Builder :=
  b.push (DomEvent.appendText s)

def setAttribute (b : Builder) (k v : String) : Builder :=
  b.push (DomEvent.setAttr k v)

def withCurrentNode (b : Builder) (e : DomEvent) : Builder :=
  b.push e

/-- The iteration helper of the builder: calls the callback on every item of
the list with the running builder and the item index, like
dombuilder forEach(array, fn(item, builder, index)). -/
def forEachFrom (f : α → Builder → Nat → Builder) : List α → Builder → Nat → Builder
  | [], b, _ => b
  | x :: xs, b, i => forEachFrom f xs (f x b i) (i + 1)

def forEach (b : Builder) (l : List α) (f : α → Builder → Nat → Builder) : Builder :=
  forEachFrom f l b 0

end Builder

/-- A reviewer entry of a CL: display name and approval value. -/
structure ReviewerInfo where
  name : String
  value : Int
  deriving DecidableEq, Repr

/-- The description of a CL; popup.js only reads its message text. -/
structure Description where
  message : String
  deriving DecidableEq, Repr

def Description.getMessage (d : Description) : String :=
  d.message

/-- A CL record, with the fields popup.js reads through accessors.
Modelled from the spec: the CL container class lives in gerrit.js, which is
not among the sources; the spec lists author, reviewer entries, description
text, Gerrit URL, size category and the resolved/submittable flags. -/
structure Changelist where
  gerritUrl : String
  author : String
  reviewers : List ReviewerInfo
  description : Description
  sizeCategory : String
  unresolvedComments : Bool
  submittable : Bool
  deriving DecidableEq, Repr

def Changelist.getGerritUrl (cl : Changelist) : String := cl.gerritUrl

def Changelist.getAuthor (cl : Changelist) : String := cl.author

def Changelist.getReviewers (cl : Changelist) : List ReviewerInfo := cl.reviewers

def Changelist.getDescription (cl : Changelist) : Description := cl.description

def Changelist.getSizeCategory (cl : Changelist) : String := cl.sizeCategory

def Changelist.hasUnresolvedComments (cl : Changelist) : Bool := cl.unresolvedComments

def Changelist.isSubmittable (cl : Changelist) : Bool := cl.submittable

/-- The category map of a SearchResults value: attention-category key to list
of CL records.  Modelled from the spec: gerrit.js (SearchResults and its
getCategoryMap) is not among the sources; the spec describes a mapping from
attention-category key to a list of CL records.  A JS Map is modelled as an
association list with pairwise distinct keys (distinctness is a hypothesis
where a theorem needs it). -/
abbrev CategoryMap := List (String × List Changelist)

/-- JS Map.has on the category map. -/
def mapHas (m : CategoryMap) (k : String) : Bool :=
  m.any (fun p => p.1 == k)

/-- JS Map.get on the category map (popup.js only calls it after has). -/
def mapGet (m : CategoryMap) (k : String) : List Changelist :=
  match m.find? (fun p => p.1 == k) with
  | some p => p.2
  | none => []

/-- Modelled from the spec: SearchResults (gerrit.js, not among the sources)
exposes a mapping from attention-category key to a list of CL records. -/
structure SearchResults where
  categoryMap : CategoryMap

def SearchResults.getCategoryMap (r : SearchResults) : CategoryMap :=
  r.categoryMap

/-- Modelled from the spec: messages.SECTION_ORDERING (messages.js, not among
the sources) is the fixed priority list of attention categories; the spec
names the categories only by example ("needsReview", "isOwner"), so
representative distinct keys are used. -/
def SECTION_ORDERING : List String :=
  ["needsReview", "isOwner", "isReviewer", "isCced"]

/-- Display metadata of an attention category: CSS class and header-text
formatter taking the CL count. -/
structure SectionDisplayData where
  className : String
  formatHeader : Nat → String

/-- Modelled from the spec: messages.POPUP_SECTION_DATA (messages.js, not
among the sources) maps each attention category to static display metadata:
a CSS class name and a header-text formatter taking the CL count. -/
def POPUP_SECTION_DATA (attention : String) : SectionDisplayData :=
  { className := attention,
    formatHeader := fun n => attention ++ ": " ++ toString n }

/-- Modelled from the spec: messages.NO_CLS_MESSAGE (messages.js, not among
the sources) is the fixed "no CLs" message text. -/
def NO_CLS_MESSAGE : String :=
  "No CLs require your attention"

/-- Modelled from the spec: config.LOGIN_PROMPT (config.js, not among the
sources) is the configured "login required" marker substring. -/
def LOGIN_PROMPT : String :=
  "login required"

/-- Modelled from the spec: config.NO_HOST_ALLOWED (config.js, not among the
sources) is the configured "no host allowed" marker substring. -/
def NO_HOST_ALLOWED : String :=
  "no host allowed"

/-- Does the character list start with the given pattern? -/
def strMatchAt : List Char → List Char → Bool
  | _, [] => true
  | [], _ :: _ => false
  | c :: cs, p :: ps => c == p && strMatchAt cs ps

/-- Does the character list contain the pattern as a contiguous run? -/
def strIncludesL (pat : List Char) : List Char → Bool
  | [] => strMatchAt [] pat
  | c :: rest => strMatchAt (c :: rest) pat || strIncludesL pat rest

/-- JS String.prototype.includes, on the underlying character lists. -/
def strIncludes (s pat : String) : Bool :=
  strIncludesL pat.data s.data

/-- A widget displaying a single CL (class ChangelistWidget). -/
structure ChangelistWidget where
  cl_ : Changelist
  deriving DecidableEq, Repr

namespace ChangelistWidget

def wrap (cl : Changelist) : ChangelistWidget :=
  ⟨cl⟩

def getGerritUrl (w : ChangelistWidget) : String :=
  w.cl_.getGerritUrl

def getAuthor (w : ChangelistWidget) : String :=
  w.cl_.getAuthor

/-- getStatusMarker of popup.js: the function returns the empty string at
once; the colored-state computation after that return is unreachable (see
coloredStatusMarker below for that dead code). -/
def getStatusMarker (_w : ChangelistWidget) : String :=
  ""

/-- The colored-state computation on the lines after the early return of
getStatusMarker, unreachable in the source; embedded separately so the
suppression can be stated. -/
def coloredStatusMarker (w : ChangelistWidget) : String :=
  if w.cl_.hasUnresolvedComments then "tbr"
  else if w.cl_.isSubmittable then "lgtm"
  else "pending"

def getSizeCategory (w : ChangelistWidget) : String :=
  w.cl_.getSizeCategory

def getReviewers (w : ChangelistWidget) : List ReviewerInfo :=
  w.cl_.getReviewers

def getDescription (w : ChangelistWidget) : Description :=
  w.cl_.getDescription

/-- The forEach callback over the reviewers in render: a separator before
every entry except the first, then a span with the approval class and the
reviewer name. -/
def renderReviewer (info : ReviewerInfo) (builder : Builder) (index : Nat) : Builder :=
  let builder := if index > 0 then builder.appendText ", " else builder
  let lgtm := info.value > 0
  builder
    |>.beginEl "span"
    |>.addClass (if lgtm then "lgtmreviewer" else "nolgtmreviewer")
    |>.appendText info.name
    |>.endEl "span"

def render (w : ChangelistWidget) (builder : Builder) : Builder :=
  builder
    |>.beginEl "div"
    |>.addClass "changelist"
    |>.beginEl "div"
    |>.addClass "changelistheader"
    |>.withCurrentNode (DomEvent.onClickOpen w.getGerritUrl)
    |>.beginEl "table"
    |>.addClass "changelisttable"
    |>.beginEl "tr"
    |>.beginEl "td"
    |>.beginEl "div"
    |>.addClass "statusmarker"
    |>.beginEl "div"
    |>.addClass "marker"
    |>.addClass (w.getStatusMarker ++ "marker")
    |>.addClass (w.getSizeCategory ++ "size")
    |>.endEl "div"
    |>.endEl "div"
    |>.endEl "td"
    |>.beginEl "td"
    |>.beginEl "div"
    |>.addClass "author"
    |>.appendText w.getAuthor
    |>.endEl "div"
    |>.endEl "td"
    |>.beginEl "td"
    |>.beginEl "div"
    |>.addClass "reviewers"
    |>.forEach w.getReviewers renderReviewer
    |>.endEl "div"
    |>.endEl "td"
    |>.beginEl "td"
    |>.beginEl "div"
    |>.addClass "description"
    |>.appendText w.getDescription.getMessage
    |>.endEl "div"
    |>.endEl "td"
    |>.endEl "tr"
    |>.endEl "table"
    |>.endEl "div"
    |>.endEl "div"

end ChangelistWidget

/-- A widget displaying a section of CLs (class SectionWidget). -/
structure SectionWidget where
  attention_ : String
  cls_ : List ChangelistWidget
  deriving DecidableEq, Repr

namespace SectionWidget

def addChangelist (w : SectionWidget) (cl : ChangelistWidget) : SectionWidget :=
  { w with cls_ := w.cls_ ++ [cl] }

def render (w : SectionWidget) (builder : Builder) : Builder :=
  let data := POPUP_SECTION_DATA w.attention_
  builder
    |>.beginEl "div"
    |>.addClass "section"
    |>.addClass data.className
    |>.beginEl "div"
    |>.appendText (data.formatHeader w.cls_.length)
    |>.addClass "sectionheader"
    |>.endEl "div"
    |>.forEach w.cls_ (fun cl builder _ => cl.render builder)
    |>.endEl "div"

def create (attention : String) (cls : List Changelist) : SectionWidget :=
  cls.foldl (fun w cl => w.addChangelist (ChangelistWidget.wrap cl))
    { attention_ := attention, cls_ := [] }

end SectionWidget

/-- The main widget in the popup (class PopupWidget). -/
structure PopupWidget where
  sections_ : List SectionWidget
  deriving DecidableEq, Repr

namespace PopupWidget

def getSections (w : PopupWidget) : List SectionWidget :=
  w.sections_

/-- addSection of popup.js: a null argument is ignored, a non-null one is
pushed at the end of the section list. -/
def addSection (w : PopupWidget) (s : Option SectionWidget) : PopupWidget :=
  match s with
  | some sec => { w with sections_ := w.sections_ ++ [sec] }
  | none => w

def render (w : PopupWidget) (builder : Builder) : Builder :=
  w.sections_.foldl (fun b sec => sec.render b) builder

def create (results : SearchResults) : PopupWidget :=
  let categories := results.getCategoryMap
  SECTION_ORDERING.foldl
    (fun widget attention =>
      if mapHas categories attention then
        widget.addSection
          (some (SectionWidget.create attention (mapGet categories attention)))
      else widget)
    { sections_ := [] }

end PopupWidget

/-- A configured review backend, as returned by the host-allowlist query.
Modelled from the spec: gerrit.fetchAllowedInstances (gerrit.js, not among
the sources) yields an ordered list of host/name pairs. -/
structure Instance where
  host : String
  name : String
  deriving DecidableEq, Repr

/-- The visibility and content state of the DOM elements popup.js touches.
Visibility models style.display: true is the default (visible) display,
false is display none. -/
structure DomState where
  overlayText : String
  overlayVisible : Bool
  resultsVisible : Bool
  loginVisible : Bool
  permissionsVisible : Bool
  loginChildren : List DomEvent
  resultsContent : List DomEvent
  permissionsClickHooks : Nat
  deriving DecidableEq, Repr

/-- setOverlayText of popup.js. -/
def setOverlayText (value : String) (st : DomState) : DomState :=
  { st with overlayText := value }

/-- setElementVisibility of popup.js, for the two identifiers it is called
with. -/
def setElementVisibility (identifier : String) (visible : Bool) (st : DomState) : DomState :=
  if identifier == "login" then { st with loginVisible := visible }
  else if identifier == "permissions" then { st with permissionsVisible := visible }
  else st

/-- The forEach callback of the login-link population: one anchor (target
blank, href the instance host, text the instance name) followed by a br
element, per allowed instance. -/
def loginLinkEntry (inst : Instance) (builder : Builder) (_index : Nat) : Builder :=
  builder
    |>.beginEl "a"
    |>.setAttribute "target" "_blank"
    |>.setAttribute "href" inst.host
    |>.appendText inst.name
    |>.endEl "a"
    |>.beginEl "br"
    |>.endEl "br"

/-- The trace built by the asynchronous login-link population callback: a div
holding the anchor and br of every allowed instance, in order. -/
def loginLinksDom (instances : List Instance) : List DomEvent :=
  (Builder.mk []
    |>.beginEl "div"
    |>.forEach instances loginLinkEntry
    |>.endEl "div").events

/-- setLoginLinkVisible of popup.js, synchronous part: set the visibility of
the login element; when hiding, return at once leaving the children alone;
when showing, remove every existing child (the asynchronous repopulation is
resolveLoginInstances below). -/
def setLoginLinkVisible (visible : Bool) (st : DomState) : DomState :=
  let st := setElementVisibility "login" visible st
  if !visible then st
  else { st with loginChildren := [] }

/-- The resolution of the fetchAllowedInstances promise inside
setLoginLinkVisible: the builder attached to the login element appends the
login links to its children. -/
def resolveLoginInstances (instances : List Instance) (st : DomState) : DomState :=
  { st with loginChildren := st.loginChildren ++ loginLinksDom instances }

/-- setGrantPermissionsButtonVisible of popup.js; every call with true also
registers one more click listener on the button. -/
def setGrantPermissionsButtonVisible (visible : Bool) (st : DomState) : DomState :=
  let st := setElementVisibility "permissions" visible st
  if visible then { st with permissionsClickHooks := st.permissionsClickHooks + 1 }
  else st

/-- setOverlayVisible of popup.js. -/
def setOverlayVisible (visible : Bool) (st : DomState) : DomState :=
  if visible then
    { st with overlayVisible := true, resultsVisible := false }
  else
    let st := { st with overlayVisible := false, resultsVisible := true }
    let st := setGrantPermissionsButtonVisible false st
    setLoginLinkVisible false st

/-- displayError of popup.js; the error is taken in its string form. -/
def displayError (error : String) (st : DomState) : DomState :=
  let error_string := error
  let st := setOverlayText error_string st
  let st := setOverlayVisible true st
  let st := setLoginLinkVisible (strIncludes error_string LOGIN_PROMPT) st
  setGrantPermissionsButtonVisible (strIncludes error_string NO_HOST_ALLOWED) st

/-- renderWidget of popup.js. -/
def renderWidget (widget : PopupWidget) (st : DomState) : DomState :=
  if widget.getSections.length == 0 then
    let st := setOverlayText (NO_CLS_MESSAGE ++ ".") st
    setOverlayVisible true st
  else
    let st := { st with
      resultsContent := (widget.render (Builder.mk st.resultsContent)).events }
    setOverlayVisible false st

theorem Builder.events_mk (l : List DomEvent) : (Builder.mk l).events = l := rfl

theorem Builder.events_push (b : Builder) (e : DomEvent) :
    (b.push e).events = b.events ++ [e] := rfl

/-- Claim C10: addSection with a null argument leaves the section list
unchanged, addSection with a non-null section appends it at the end, and
getSections returns the section list. -/
theorem addSection_null_noop_append (w : PopupWidget) (s : SectionWidget) :
    w.addSection none = w
    ∧ (w.addSection (some s)).sections_ = w.sections_ ++ [s]
    ∧ w.getSections = w.sections_ :=
  ⟨rfl, rfl, rfl⟩

/-- Claim C7: showing the overlay is idempotent; a second call of
setOverlayVisible true leaves the whole element state, in particular the
visibility of the overlay, results container, login panel and permissions
button, exactly as after the first call. -/
theorem setOverlayVisible_true_idem (st : DomState) :
    setOverlayVisible true (setOverlayVisible true st) = setOverlayVisible true st := rfl

/-- Claim C8: hiding the overlay also hides the login panel and the
permissions button and shows the results container, while showing the
overlay changes only the overlay and results-container visibility and leaves
the login panel and the permissions button untouched. -/
theorem setOverlayVisible_frame (st : DomState) :
    ((setOverlayVisible false st).overlayVisible = false
      ∧ (setOverlayVisible false st).resultsVisible = true
      ∧ (setOverlayVisible false st).loginVisible = false
      ∧ (setOverlayVisible false st).permissionsVisible = false)
    ∧ ((setOverlayVisible true st).overlayVisible = true
      ∧ (setOverlayVisible true st).resultsVisible = false
      ∧ (setOverlayVisible true st).loginVisible = st.loginVisible
      ∧ (setOverlayVisible true st).permissionsVisible = st.permissionsVisible
      ∧ (setOverlayVisible true st).loginChildren = st.loginChildren
      ∧ (setOverlayVisible true st).overlayText = st.overlayText) := by
  refine ⟨⟨?_, ?_, ?_, ?_⟩, rfl, rfl, rfl, rfl, rfl, rfl⟩ <;>
    simp [setOverlayVisible, setGrantPermissionsButtonVisible,
      setLoginLinkVisible, setElementVisibility]

/-- Claim C6: getStatusMarker returns the empty string for every wrapped CL,
whatever its hasUnresolvedComments and isSubmittable flags, so the rendered
marker class reduces to the bare "marker"; the colored-state computation it
suppresses would always produce a non-empty marker. -/
theorem statusMarker_always_empty (cl : Changelist) :
    (ChangelistWidget.wrap cl).getStatusMarker = ""
    ∧ (ChangelistWidget.wrap cl).getStatusMarker ++ "marker" = "marker"
    ∧ (ChangelistWidget.wrap cl).coloredStatusMarker ≠ "" := by
  refine ⟨rfl, rfl, ?_⟩
  simp only [ChangelistWidget.coloredStatusMarker, ChangelistWidget.wrap,
    Changelist.hasUnresolvedComments, Changelist.isSubmittable]
  split
  · decide
  · split <;> decide

/-- Claim C2: displayError sets the overlay text to the error string and
shows the overlay; the login panel is visible exactly when the string
contains the login-prompt marker and the permissions button exactly when it
contains the no-host-allowed marker, the two checks being independent. -/
theorem displayError_panels (error : String) (st : DomState) :
    (displayError error st).overlayText = error
    ∧ (displayError error st).overlayVisible = true
    ∧ (displayError error st).loginVisible = strIncludes error LOGIN_PROMPT
    ∧ (displayError error st).permissionsVisible = strIncludes error NO_HOST_ALLOWED := by
  cases h1 : strIncludes error LOGIN_PROMPT <;>
    cases h2 : strIncludes error NO_HOST_ALLOWED <;>
      simp [displayError, setOverlayText, setOverlayVisible, setLoginLinkVisible,
        setGrantPermissionsButtonVisible, setElementVisibility, h1, h2]

/-- Claim C3: renderWidget with a widget of zero sections sets the overlay
text to the fixed no-CLs message followed by a period, shows the overlay and
hides the results container, leaving the results content alone; with at
least one section it renders the widget into the results container, hides
the overlay and shows the results container. -/
theorem renderWidget_cases (widget : PopupWidget) (st : DomState) :
    (widget.getSections = [] →
      (renderWidget widget st).overlayText = NO_CLS_MESSAGE ++ "."
      ∧ (renderWidget widget st).overlayVisible = true
      ∧ (renderWidget widget st).resultsVisible = false
      ∧ (renderWidget widget st).resultsContent = st.resultsContent)
    ∧ (widget.getSections ≠ [] →
      (renderWidget widget st).resultsContent
          = (widget.render (Builder.mk st.resultsContent)).events
      ∧ (renderWidget widget st).overlayVisible = false
      ∧ (renderWidget widget st).resultsVisible = true) := by
  constructor
  · intro h
    simp [renderWidget, h, setOverlayText, setOverlayVisible]
  · intro h
    have hlen : widget.getSections.length ≠ 0 := by
      simpa [List.length_eq_zero] using h
    simp [renderWidget, hlen, setOverlayVisible, setGrantPermissionsButtonVisible,
      setLoginLinkVisible, setElementVisibility]

def emptyDomState : DomState :=
  { overlayText := ""
    overlayVisible := false
    resultsVisible := true
    loginVisible := false
    permissionsVisible := false
    loginChildren := []
    resultsContent := []
    permissionsClickHooks := 0 }

def sampleCl : Changelist :=
  { gerritUrl := "https://gerrit.example/c/1"
    author := "alice"
    reviewers := [{ name := "bob", value := 1 }, { name := "carol", value := 0 }]
    description := { message := "Fix a bug" }
    sizeCategory := "small"
    unresolvedComments := false
    submittable := true }

def sampleSection : SectionWidget :=
  SectionWidget.create "needsReview" [sampleCl]

/-- Witness for claim C3: the two branches of renderWidget_cases at concrete
widgets and the empty DOM state. -/
theorem renderWidget_cases_witness :
    (renderWidget (PopupWidget.mk []) emptyDomState).overlayText = NO_CLS_MESSAGE ++ "."
    ∧ (renderWidget (PopupWidget.mk [sampleSection]) emptyDomState).overlayVisible = false :=
  ⟨((renderWidget_cases (PopupWidget.mk []) emptyDomState).1 rfl).1,
   ((renderWidget_cases (PopupWidget.mk [sampleSection]) emptyDomState).2
      (by simp [PopupWidget.getSections])).2.1⟩

/-- Does a trace event open an anchor element? -/
def isAnchorStart : DomEvent → Bool
  | DomEvent.beginTag t => t == "a"
  | _ => false

/-- The number of anchor elements (links) in a trace. -/
def countAnchors (l : List DomEvent) : Nat :=
  l.countP isAnchorStart

/-- The events of one login-link entry. -/
def loginLinkEntryDoc (inst : Instance) : List DomEvent :=
  [DomEvent.beginTag "a", DomEvent.setAttr "target" "_blank",
   DomEvent.setAttr "href" inst.host, DomEvent.appendText inst.name,
   DomEvent.endTag "a", DomEvent.beginTag "br", DomEvent.endTag "br"]

theorem loginLinkEntry_events (inst : Instance) (b : Builder) (i : Nat) :
    (loginLinkEntry inst b i).events = b.events ++ loginLinkEntryDoc inst := by
  simp [loginLinkEntry, Builder.beginEl, Builder.endEl, Builder.setAttribute,
    Builder.appendText, Builder.push, loginLinkEntryDoc]

/-- Trace of a forEach whose callback appends a fixed per-item block. -/
theorem Builder.forEachFrom_events_of_append
    (f : α → Builder → Nat → Builder) (g : α → List DomEvent)
    (hf : ∀ x b i, (f x b i).events = b.events ++ g x) :
    ∀ (l : List α) (b : Builder) (i : Nat),
      (Builder.forEachFrom f l b i).events = b.events ++ (l.map g).flatten
  | [], b, i => by simp [Builder.forEachFrom]
  | x :: xs, b, i => by
    rw [Builder.forEachFrom,
      Builder.forEachFrom_events_of_append f g hf xs (f x b i) (i + 1), hf]
    simp [List.append_assoc]

theorem loginLinksDom_eq (instances : List Instance) :
    loginLinksDom instances
      = DomEvent.beginTag "div"
          :: ((instances.map loginLinkEntryDoc).flatten ++ [DomEvent.endTag "div"]) := by
  simp [loginLinksDom, Builder.forEach,
    Builder.forEachFrom_events_of_append loginLinkEntry loginLinkEntryDoc
      loginLinkEntry_events,
    Builder.beginEl, Builder.endEl, Builder.push]

theorem countAnchors_flatten_entries (instances : List Instance) :
    ((instances.map loginLinkEntryDoc).flatten).countP isAnchorStart
      = instances.length := by
  induction instances with
  | nil => simp
  | cons inst rest ih =>
    simp [List.countP_append, ih, loginLinkEntryDoc, List.countP_cons, isAnchorStart]

theorem countAnchors_loginLinks (instances : List Instance) :
    countAnchors (loginLinksDom instances) = instances.length := by
  rw [countAnchors, loginLinksDom_eq]
  simp [List.countP_cons, List.countP_append, isAnchorStart,
    countAnchors_flatten_entries instances]

/-- Claim C9: showing the login panel first removes every existing child, so
after the asynchronous repopulation the panel holds exactly the link block of
the allowed instances, one anchor per instance, however many children it had
before; hiding the panel changes only its visibility and leaves its children
alone. -/
theorem setLoginLinkVisible_children (st : DomState) (instances : List Instance) :
    (resolveLoginInstances instances (setLoginLinkVisible true st)).loginChildren
        = loginLinksDom instances
    ∧ countAnchors (loginLinksDom instances) = instances.length
    ∧ (setLoginLinkVisible false st).loginChildren = st.loginChildren
    ∧ (setLoginLinkVisible false st).loginVisible = false := by
  refine ⟨?_, countAnchors_loginLinks instances, ?_, ?_⟩ <;>
    simp [resolveLoginInstances, setLoginLinkVisible, setElementVisibility]

/-- The events of one reviewer span: the approval class and the name. -/
def reviewerSpanDoc (r : ReviewerInfo) : List DomEvent :=
  [DomEvent.beginTag "span",
   DomEvent.addClass (if r.value > 0 then "lgtmreviewer" else "nolgtmreviewer"),
   DomEvent.appendText r.name,
   DomEvent.endTag "span"]

/-- Join a list of blocks with a separator between consecutive blocks only,
never leading nor trailing. -/
def sepJoin (sep : List DomEvent) : List (List DomEvent) → List DomEvent
  | [] => []
  | [x] => x
  | x :: y :: rest => x ++ sep ++ sepJoin sep (y :: rest)

theorem renderReviewer_events_zero (r : ReviewerInfo) (b : Builder) :
    (ChangelistWidget.renderReviewer r b 0).events = b.events ++ reviewerSpanDoc r := by
  simp [ChangelistWidget.renderReviewer, Builder.beginEl, Builder.endEl,
    Builder.addClass, Builder.appendText, Builder.push, reviewerSpanDoc]

theorem renderReviewer_events_pos (r : ReviewerInfo) (b : Builder) (i : Nat)
    (h : 0 < i) :
    (ChangelistWidget.renderReviewer r b i).events
      = b.events ++ (DomEvent.appendText ", " :: reviewerSpanDoc r) := by
  simp [ChangelistWidget.renderReviewer, h, Builder.beginEl, Builder.endEl,
    Builder.addClass, Builder.appendText, Builder.push, reviewerSpanDoc]

theorem forEachFrom_renderReviewer_pos :
    ∀ (rs : List ReviewerInfo) (b : Builder) (i : Nat),
      (Builder.forEachFrom ChangelistWidget.renderReviewer rs b (i + 1)).events
        = b.events
            ++ (rs.map (fun r => DomEvent.appendText ", " :: reviewerSpanDoc r)).flatten
  | [], b, i => by simp [Builder.forEachFrom]
  | r :: rs, b, i => by
    rw [Builder.forEachFrom,
      forEachFrom_renderReviewer_pos rs (ChangelistWidget.renderReviewer r b (i + 1)) (i + 1),
      renderReviewer_events_pos r b (i + 1) (Nat.succ_pos i)]
    simp [List.append_assoc]

theorem sepJoin_cons (sep : List DomEvent) :
    ∀ (x : List DomEvent) (xs : List (List DomEvent)),
      sepJoin sep (x :: xs) = x ++ (xs.map (fun y => sep ++ y)).flatten
  | _, [] => by simp [sepJoin]
  | x, y :: rest => by
    rw [sepJoin, sepJoin_cons sep y rest]
    simp [List.append_assoc]

/-- The reviewers cell content: reviewer spans joined by the ", "
separator. -/
def revCellDoc (rs : List ReviewerInfo) : List DomEvent :=
  sepJoin [DomEvent.appendText ", "] (rs.map reviewerSpanDoc)

theorem forEach_renderReviewer_events (b : Builder) (rs : List ReviewerInfo) :
    (b.forEach rs ChangelistWidget.renderReviewer).events
      = b.events ++ revCellDoc rs := by
  cases rs with
  | nil => simp [Builder.forEach, Builder.forEachFrom, revCellDoc, sepJoin]
  | cons r rest =>
    rw [Builder.forEach, Builder.forEachFrom]
    rw [show (0 : Nat) + 1 = 0 + 1 from rfl]
    rw [forEachFrom_renderReviewer_pos rest (ChangelistWidget.renderReviewer r b 0) 0,
      renderReviewer_events_zero r b, revCellDoc, List.map_cons, sepJoin_cons]
    simp [List.append_assoc, List.map_map, Function.comp_def]

/-- Claim C5: the reviewers cell emits the reviewer spans in input order,
joined by the ", " separator placed only between consecutive entries, and a
reviewer span carries the approved class exactly when the approval value is
strictly positive. -/
theorem reviewers_cell_rendering (rs : List ReviewerInfo) (b : Builder) :
    (b.forEach rs ChangelistWidget.renderReviewer).events
        = b.events ++ sepJoin [DomEvent.appendText ", "] (rs.map reviewerSpanDoc)
    ∧ ∀ r : ReviewerInfo,
        (DomEvent.addClass "lgtmreviewer" ∈ reviewerSpanDoc r ↔ 0 < r.value) := by
  refine ⟨forEach_renderReviewer_events b rs, ?_⟩
  intro r
  by_cases h : (0 : Int) < r.value
  · simp [reviewerSpanDoc, h]
  · simp [reviewerSpanDoc, h]

/-- The row trace of one changelist widget, rendered from an empty builder. -/
def changelistDoc (w : ChangelistWidget) : List DomEvent :=
  (w.render (Builder.mk [])).events

theorem changelist_render_events (w : ChangelistWidget) (b : Builder) :
    (w.render b).events = b.events ++ changelistDoc w := by
  simp [changelistDoc, ChangelistWidget.render, Builder.beginEl, Builder.endEl,
    Builder.addClass, Builder.appendText, Builder.withCurrentNode, Builder.push,
    forEach_renderReviewer_events, List.append_assoc]

theorem forEachFrom_render_cls :
    ∀ (cls : List ChangelistWidget) (b : Builder) (i : Nat),
      (Builder.forEachFrom (fun cl builder _ => ChangelistWidget.render cl builder)
          cls b i).events
        = b.events ++ (cls.map changelistDoc).flatten
  | [], b, i => by simp [Builder.forEachFrom]
  | cl :: cls, b, i => by
    rw [Builder.forEachFrom,
      forEachFrom_render_cls cls (ChangelistWidget.render cl b) (i + 1),
      changelist_render_events cl b]
    simp [List.append_assoc]

/-- The opening events of a section: container div with the section classes
and the header div with the formatted CL count. -/
def sectionHeaderDoc (attention : String) (n : Nat) : List DomEvent :=
  [DomEvent.beginTag "div", DomEvent.addClass "section", DomEvent.addClass attention,
   DomEvent.beginTag "div", DomEvent.appendText (attention ++ ": " ++ toString n),
   DomEvent.addClass "sectionheader", DomEvent.endTag "div"]

theorem section_render_events (w : SectionWidget) (b : Builder) :
    (w.render b).events
      = b.events ++ sectionHeaderDoc w.attention_ w.cls_.length
          ++ (w.cls_.map changelistDoc).flatten ++ [DomEvent.endTag "div"] := by
  simp [SectionWidget.render, POPUP_SECTION_DATA, sectionHeaderDoc, Builder.forEach,
    Builder.beginEl, Builder.endEl, Builder.addClass, Builder.appendText, Builder.push,
    forEachFrom_render_cls, List.append_assoc]

theorem foldl_addChangelist :
    ∀ (cls : List Changelist) (w : SectionWidget),
      cls.foldl (fun w cl => w.addChangelist (ChangelistWidget.wrap cl)) w
        = ⟨w.attention_, w.cls_ ++ cls.map ChangelistWidget.wrap⟩
  | [], w => by simp
  | cl :: cls, w => by
    rw [List.foldl_cons, foldl_addChangelist cls]
    simp [SectionWidget.addChangelist]

theorem section_create_eq (attention : String) (cls : List Changelist) :
    SectionWidget.create attention cls
      = ⟨attention, cls.map ChangelistWidget.wrap⟩ := by
  rw [SectionWidget.create, foldl_addChangelist]
  simp

/-- Claim C4: SectionWidget.create wraps each CL record in input order, so
the section holds exactly as many child widgets as input records, and its
render emits the header followed by the children's row traces in exactly the
input order. -/
theorem section_preserves_order (attention : String) (cls : List Changelist) (b : Builder) :
    (SectionWidget.create attention cls).cls_ = cls.map ChangelistWidget.wrap
    ∧ (SectionWidget.create attention cls).cls_.length = cls.length
    ∧ ((SectionWidget.create attention cls).render b).events
        = b.events ++ sectionHeaderDoc attention cls.length
            ++ (cls.map (fun cl => changelistDoc (ChangelistWidget.wrap cl))).flatten
            ++ [DomEvent.endTag "div"] := by
  rw [section_create_eq]
  refine ⟨rfl, by simp, ?_⟩
  rw [section_render_events]
  simp [List.map_map, Function.comp_def]

theorem mapHas_iff (m : CategoryMap) (k : String) :
    mapHas m k = true ↔ k ∈ m.map Prod.fst := by
  simp [mapHas, List.any_eq_true, List.mem_map]

theorem sectionOrdering_nodup : SECTION_ORDERING.Nodup := by decide

theorem foldl_addSection (m : CategoryMap) :
    ∀ (ord : List String) (w : PopupWidget),
      ord.foldl
        (fun widget attention =>
          if mapHas m attention then
            widget.addSection
              (some (SectionWidget.create attention (mapGet m attention)))
          else widget) w
        = ⟨w.sections_ ++ (ord.filter (fun a => mapHas m a)).map
            (fun a => SectionWidget.create a (mapGet m a))⟩
  | [], w => by simp
  | a :: ord, w => by
    rw [List.foldl_cons]
    cases h : mapHas m a
    · rw [if_neg (by simp), foldl_addSection m ord w]
      simp [List.filter_cons, h]
    · rw [if_pos rfl, foldl_addSection m ord]
      simp [PopupWidget.addSection, List.filter_cons, h]

theorem popup_create_sections_eq (m : CategoryMap) :
    (PopupWidget.create ⟨m⟩).sections_
      = (SECTION_ORDERING.filter (fun a => mapHas m a)).map
          (fun a => SectionWidget.create a (mapGet m a)) := by
  rw [PopupWidget.create]
  simp only [SearchResults.getCategoryMap]
  rw [foldl_addSection m SECTION_ORDERING ⟨[]⟩]
  simp

theorem filter_ordering_perm_keys (m : CategoryMap)
    (hnodup : (m.map Prod.fst).Nodup)
    (hcover : ∀ p ∈ m, p.1 ∈ SECTION_ORDERING) :
    (SECTION_ORDERING.filter (fun a => mapHas m a)).Perm (m.map Prod.fst) := by
  rw [List.perm_ext_iff_of_nodup (sectionOrdering_nodup.filter _) hnodup]
  intro a
  simp only [List.mem_filter, mapHas_iff]
  constructor
  · rintro ⟨-, h⟩
    exact h
  · intro h
    refine ⟨?_, h⟩
    rcases List.mem_map.mp h with ⟨p, hp, rfl⟩
    exact hcover p hp

theorem mapHas_congr_perm {m mp : CategoryMap} (h : m.Perm mp) (k : String) :
    mapHas m k = mapHas mp k := by
  rw [Bool.eq_iff_iff, mapHas_iff, mapHas_iff]
  exact (h.map Prod.fst).mem_iff

theorem find_congr_perm {m mp : CategoryMap} (h : m.Perm mp)
    (hnodup : (m.map Prod.fst).Nodup) (k : String) :
    m.find? (fun p => p.1 == k) = mp.find? (fun p => p.1 == k) := by
  cases hf : m.find? (fun p => p.1 == k) with
  | none =>
    have hall : ∀ p ∈ mp, ¬((p.1 == k) = true) := fun p hp =>
      List.find?_eq_none.mp hf p (h.mem_iff.mpr hp)
    exact (List.find?_eq_none.mpr hall).symm
  | some p =>
    have hpmem : p ∈ m := List.mem_of_find?_eq_some hf
    have hpk := List.find?_some hf
    cases hf2 : mp.find? (fun q => q.1 == k) with
    | none =>
      exact absurd hpk (List.find?_eq_none.mp hf2 p (h.mem_iff.mp hpmem))
    | some q =>
      have hqmem : q ∈ m := h.mem_iff.mpr (List.mem_of_find?_eq_some hf2)
      have hqk := List.find?_some hf2
      have hpq : p = q := by
        apply List.inj_on_of_nodup_map hnodup hpmem hqmem
        have h1 : p.1 = k := by simpa using hpk
        have h2 : q.1 = k := by simpa using hqk
        rw [h1, h2]
      rw [hpq]

theorem mapGet_congr_perm {m mp : CategoryMap} (h : m.Perm mp)
    (hnodup : (m.map Prod.fst).Nodup) (k : String) :
    mapGet m k = mapGet mp k := by
  rw [mapGet, mapGet, find_congr_perm h hnodup k]

theorem popupWidget_eq_of_sections {w1 w2 : PopupWidget}
    (h : w1.sections_ = w2.sections_) : w1 = w2 := by
  cases w1
  cases w2
  simpa using h

theorem popup_create_perm_eq (m mp : CategoryMap) (h : m.Perm mp)
    (hnodup : (m.map Prod.fst).Nodup) :
    PopupWidget.create ⟨mp⟩ = PopupWidget.create ⟨m⟩ := by
  apply popupWidget_eq_of_sections
  rw [popup_create_sections_eq, popup_create_sections_eq]
  have hhas : (fun a => mapHas mp a) = fun a => mapHas m a :=
    funext fun a => (mapHas_congr_perm h a).symm
  have hget : (fun a => SectionWidget.create a (mapGet mp a))
      = fun a => SectionWidget.create a (mapGet m a) :=
    funext fun a => by rw [mapGet_congr_perm h hnodup a]
  rw [hhas, hget]

/-- Claim C1: for a category map of K non-empty attention categories with
distinct keys, PopupWidget.create produces exactly K sections, they are the
sections of the present categories taken in the fixed SECTION_ORDERING
priority order, a permutation of the input map yields the same widget, and a
category absent from the map never produces a section. -/
theorem popup_create_priority_sections
    (m mp : CategoryMap) (hperm : m.Perm mp)
    (hnodup : (m.map Prod.fst).Nodup)
    (hcover : ∀ p ∈ m, p.1 ∈ SECTION_ORDERING)
    (_hne : ∀ p ∈ m, p.2 ≠ []) :
    (PopupWidget.create ⟨m⟩).getSections.length = m.length
    ∧ (PopupWidget.create ⟨m⟩).getSections
        = (SECTION_ORDERING.filter (fun a => mapHas m a)).map
            (fun a => SectionWidget.create a (mapGet m a))
    ∧ PopupWidget.create ⟨mp⟩ = PopupWidget.create ⟨m⟩
    ∧ ∀ a, mapHas m a = false →
        ∀ s ∈ (PopupWidget.create ⟨m⟩).getSections, s.attention_ ≠ a := by
  have hsec := popup_create_sections_eq m
  refine ⟨?_, ?_, popup_create_perm_eq m mp hperm hnodup, ?_⟩
  · rw [PopupWidget.getSections, hsec, List.length_map,
      (filter_ordering_perm_keys m hnodup hcover).length_eq, List.length_map]
  · rw [PopupWidget.getSections, hsec]
  · intro a ha s hs
    rw [PopupWidget.getSections, hsec] at hs
    rcases List.mem_map.mp hs with ⟨a2, ha2, rfl⟩
    have hatt : (SectionWidget.create a2 (mapGet m a2)).attention_ = a2 := by
      rw [section_create_eq]
    intro heq
    rw [hatt] at heq
    subst heq
    have hmem := (List.mem_filter.mp ha2).2
    rw [ha] at hmem
    exact Bool.false_ne_true hmem

def sampleCl2 : Changelist :=
  { gerritUrl := "https://gerrit.example/c/2"
    author := "dave"
    reviewers := [{ name := "erin", value := 2 }]
    description := { message := "Add a feature" }
    sizeCategory := "large"
    unresolvedComments := true
    submittable := false }

def mC : CategoryMap :=
  [("isOwner", [sampleCl]), ("needsReview", [sampleCl2])]

def mCperm : CategoryMap :=
  [("needsReview", [sampleCl2]), ("isOwner", [sampleCl])]

/-- Witness for claim C1: a concrete two-category map, presented in an order
opposite to the priority list, and its permutation. -/
theorem popup_create_priority_sections_witness :
    (PopupWidget.create ⟨mC⟩).getSections.length = mC.length
    ∧ (PopupWidget.create ⟨mC⟩).getSections
        = (SECTION_ORDERING.filter (fun a => mapHas mC a)).map
            (fun a => SectionWidget.create a (mapGet mC a))
    ∧ PopupWidget.create ⟨mCperm⟩ = PopupWidget.create ⟨mC⟩
    ∧ ∀ a, mapHas mC a = false →
        ∀ s ∈ (PopupWidget.create ⟨mC⟩).getSections, s.attention_ ≠ a :=
  popup_create_priority_sections mC mCperm (by decide) (by decide) (by decide)
    (by decide)

/-- Witness for claim C6: the status marker of a concrete submittable CL. -/
theorem statusMarker_always_empty_witness :
    (ChangelistWidget.wrap sampleCl).getStatusMarker = ""
    ∧ (ChangelistWidget.wrap sampleCl).getStatusMarker ++ "marker" = "marker"
    ∧ (ChangelistWidget.wrap sampleCl).coloredStatusMarker ≠ "" :=
  statusMarker_always_empty sampleCl
